import Mathlib

/-!
Shallow embedding of `src/easyaudit/protocols.py`: the HTTP and SFTP
call-instrumentation clients (`ServiceHTTPClient.request`,
`ServiceSFTPClient.__init__/connect/is_valid_path/upload/close`).

External effects are passed in explicitly:
* the HTTP transport outcome (`super().request(...)` together with the
  `response.json()` decode) is a parameter of `request`;
* the SFTP transport behaviour (`client.connect`/`open_sftp`,
  `channel.listdir`, `remote_file.write`) is an `SFTPWorld` parameter;
* wall-clock reads `time.time()` are parameters `t0` (start) and `t1` (end);
* records handed to the audit sink (`ExternalServiceLog.objects.create`)
  are returned as a list.  In the source every such sink call is commented
  out (protocols.py lines 60, 96-98, 168), so the functions return `[]`;
  `connect`'s failure branch still *invokes* the commented-out
  `self.__create_log` (line 119), which in Python raises `AttributeError`.

A Python exception escaping a method is modelled by `Except PyError`.
-/

namespace EasyAudit

/-- protocols.py line 12. -/
def PROTOCOLS : List String := ["http", "sftp"]

/-- protocols.py line 13. -/
def OPERATIONS : List String := ["upload", "download"]

/-- protocols.py line 14. -/
def THIRTY_SECONDS_TIMEOUT : Nat := 30

deriving instance DecidableEq for Except

/-- A Python exception that escapes an instrumentor method. -/
inductive PyError where
  | nameError (name : String)
  | attributeError (name : String)
deriving Repr, DecidableEq

/-- Python truthiness of the `error` variable (`None` or a `str`) as used in
`if error:` (protocols.py line 55): `None` and `""` are falsy. -/
def pyTruthy : Option String → Bool
  | none => false
  | some s => !(s == "")

/-- Python `str(...)` applied to `None` or a string (`f"...{str(error)}"`,
protocols.py line 158): `str(None) = "None"`. -/
def pyStrOpt : Option String → String
  | none => "None"
  | some s => s

/-! ## HTTP client (`ServiceHTTPClient`, protocols.py lines 17-62) -/

/-- The underlying `requests` response object: its status code and the
outcome of calling `.json()` on it (which may raise, with the given
exception text). -/
structure HTTPResponse where
  status_code : Nat
  json : Except String String
deriving Repr, DecidableEq

/-- The `request_repr` dict built at protocols.py lines 30-35 (the source
stores `str(request_repr)`; we keep the structured value). -/
structure HTTPRequestRepr where
  endpoint : String
  method : String
  headers : String
  body : String
deriving Repr, DecidableEq

/-- The `response_repr` dict built at protocols.py lines 39-42. -/
structure HTTPRespRepr where
  status_code : Nat
  body : String
deriving Repr, DecidableEq

/-- The audit payload dict built at protocols.py lines 48-58.  Exactly one
of `error_message` / `response_repr` is added as a key by lines 55-58;
absence of the key is `none`. -/
structure HTTPPayload where
  service_name : String
  protocol : String
  request_repr : HTTPRequestRepr
  execution_time : Int
  error_message : Option String
  response_repr : Option HTTPRespRepr
deriving Repr, DecidableEq

/-- `ServiceHTTPClient.request` (protocols.py lines 23-62).

`transport` is the outcome of `super().request(method, url, **kwargs)`:
`.error e` when the transport raises with `str(e) = e`, `.ok r` when it
returns response `r` (whose `.json` field is the outcome of
`response.json()`, evaluated inside the same `try`).  `t0`/`t1` are the two
`time.time()` reads.  Returns the constructed payload, the value returned
to the caller (`response`, possibly `None`), and the list of records
emitted to the sink — `[]`, because line 60 is commented out.  When
`error` is falsy but `response_repr` was never bound (an exception whose
`str` is empty), line 58 raises `NameError`. -/
def ServiceHTTPClient.request (service_name method url headers data : String)
    (transport : Except String HTTPResponse) (t0 t1 : Int) :
    Except PyError (HTTPPayload × Option HTTPResponse × List HTTPPayload) :=
  let request_repr : HTTPRequestRepr :=
    { endpoint := url, method := method, headers := headers, body := data }
  let outcome : Option String × Option HTTPResponse × Option HTTPRespRepr :=
    match transport with
    | .error e => (some e, none, none)
    | .ok r =>
      match r.json with
      | .error e => (some e, some r, none)
      | .ok b => (none, some r, some { status_code := r.status_code, body := b })
  let error := outcome.1
  let response := outcome.2.1
  let response_repr := outcome.2.2
  let execution_time := t1 - t0
  if pyTruthy error then
    .ok ({ service_name := service_name, protocol := PROTOCOLS[0]!,
           request_repr := request_repr, execution_time := execution_time,
           error_message := error, response_repr := none },
         response, [])
  else
    match response_repr with
    | some rr =>
      .ok ({ service_name := service_name, protocol := PROTOCOLS[0]!,
             request_repr := request_repr, execution_time := execution_time,
             error_message := none, response_repr := some rr },
           response, [])
    | none => .error (.nameError "response_repr")

/-! ## SFTP client (`ServiceSFTPClient`, protocols.py lines 65-175) -/

/-- The `request_repr` sub-dict of `log_payload` (protocols.py
lines 85-90). -/
structure SFTPRequestRepr where
  host : String
  operation : Option String
  remote_path : String
  filename : String
deriving Repr, DecidableEq

/-- The value stored under `response_repr` in `log_payload`: initially the
string `""` (line 91), later the dict `{"message": result}` (line 165). -/
inductive SFTPRespRepr where
  | strVal (s : String)
  | msgDict (message : String)
deriving Repr, DecidableEq

/-- The mutable `self.log_payload` dict (protocols.py lines 82-94), shared
across all calls on one instance. -/
structure SFTPLogPayload where
  service_name : String
  protocol : String
  request_repr : SFTPRequestRepr
  response_repr : SFTPRespRepr
  error_message : String
  execution_time : Int
deriving Repr, DecidableEq

/-- The mutable state of a `ServiceSFTPClient` instance.  `channel` is the
cached `paramiko.SFTPClient` handle (`None` until `open_sftp` succeeds),
identified by a numeric id so handle identity can be stated. -/
structure SFTPState where
  host : String
  port : Nat
  username : String
  password : String
  service_name : String
  channel : Option Nat
  log_payload : SFTPLogPayload
deriving Repr, DecidableEq

/-- The state the source's own tests of `self.channel` (lines 104, 125,
142, 173) treat as "no live session": the cached channel is `None`. -/
def SFTPState.isDisconnected (s : SFTPState) : Bool :=
  s.channel.isNone

/-- `ServiceSFTPClient.__init__` (protocols.py lines 66-94). -/
def ServiceSFTPClient.init (host : String) (port : Nat)
    (username password service_name : String) : SFTPState :=
  { host := host, port := port, username := username, password := password,
    service_name := service_name, channel := none,
    log_payload :=
      { service_name := service_name, protocol := PROTOCOLS[1]!,
        request_repr :=
          { host := host, operation := none, remote_path := "", filename := "" },
        response_repr := .strVal "", error_message := "", execution_time := 0 } }

/-- Behaviour of the external SFTP transport during one call:
`connectResult` is the combined outcome of `client.connect(...)` and
`client.open_sftp()` (error text, or the id of the freshly opened
channel); `listdirOK path` says whether `channel.listdir(path)` succeeds;
`writeResult` is the outcome of opening the remote file and writing. -/
structure SFTPWorld where
  connectResult : Except String Nat
  listdirOK : String → Bool
  writeResult : Except String Unit

/-- `ServiceSFTPClient.connect` (protocols.py lines 100-122).

Returns the new state, the number of underlying transport connection
attempts made (`client.connect` calls), the records emitted to the sink,
and either the method's return value `(channel, exception-text)` or the
Python exception that escaped.  On a transport failure the except block
sets `log_payload["error_message"]` and then calls `self.__create_log()`
(line 119) — a method whose definition is commented out (lines 96-98) —
so `AttributeError` escapes and `return None, e` (line 120) is never
reached. -/
def ServiceSFTPClient.connect (w : SFTPWorld) (s : SFTPState) :
    SFTPState × Nat × List SFTPLogPayload × Except PyError (Option Nat × Option String) :=
  match s.channel with
  | some c => (s, 0, [], .ok (some c, none))
  | none =>
    match w.connectResult with
    | .ok ch => ({ s with channel := some ch }, 1, [], .ok (some ch, none))
    | .error e =>
      let msg := "SFTP connection failed. Error: " ++ e
      ({ s with log_payload := { s.log_payload with error_message := msg } },
       1, [], .error (.attributeError "_ServiceSFTPClient__create_log"))

/-- `ServiceSFTPClient.is_valid_path` (protocols.py lines 124-132).

Returns the `(bool, reason)` pair together with the number of remote
`listdir` transport calls made. -/
def ServiceSFTPClient.is_valid_path (w : SFTPWorld) (s : SFTPState)
    (path_to_folder : String) : (Bool × Option String) × Nat :=
  match s.channel with
  | some _ =>
    if w.listdirOK path_to_folder then
      ((true, none), 1)
    else
      ((false, some ("Folder(" ++ path_to_folder ++ ") not found.")), 1)
  | none => ((false, some "Connection not established"), 0)

/-- `ServiceSFTPClient.upload` (protocols.py lines 134-170).

Returns the new state, the records emitted to the sink (`[]`: line 168 is
commented out), and the returned `result` string.  Mirrors the source
statement-for-statement: the `request_repr` fields are mutated first
(lines 138-140); inside the `if self.channel:` branch the assignment at
lines 157-159 runs unconditionally after the `if not error:` block, so it
overwrites `error_message` with
`f"Path validation failed. Error: {str(error)}"` even when `error` is
`None`; lines 165-166 then set `response_repr` and `execution_time` on
every path. -/
def ServiceSFTPClient.upload (w : SFTPWorld) (s : SFTPState)
    (path_to_folder filename file_content : String) (t0 t1 : Int) :
    SFTPState × List SFTPLogPayload × String :=
  let p0 : SFTPLogPayload :=
    { s.log_payload with request_repr :=
        { s.log_payload.request_repr with
            operation := some (OPERATIONS[0]!),
            remote_path := path_to_folder,
            filename := filename } }
  let branch : String × SFTPLogPayload :=
    match s.channel with
    | some _ =>
      let error := (ServiceSFTPClient.is_valid_path w
        { s with log_payload := p0 } path_to_folder).1.2
      let inner : String × SFTPLogPayload :=
        match error with
        | none =>
          match w.writeResult with
          | .ok _ => (filename ++ " uploaded successfully to " ++ path_to_folder, p0)
          | .error e =>
            ("", { p0 with error_message := "File upload failed. Error: " ++ e })
        | some _ => ("", p0)
      (inner.1, { inner.2 with
        error_message := "Path validation failed. Error: " ++ pyStrOpt error })
    | none => ("", { p0 with error_message := "Connection not established" })
  let result := branch.1
  let p1 := { branch.2 with
    response_repr := SFTPRespRepr.msgDict result, execution_time := t1 - t0 }
  ({ s with log_payload := p1 }, [], result)

/-- `ServiceSFTPClient.close` (protocols.py lines 172-175).

Returns the new state, the number of `channel.close()` calls and the
number of `client.close()` calls (both closes are total in paramiko, also
on already-closed handles).  Note the source never assigns
`self.channel = None`, so the state is unchanged. -/
def ServiceSFTPClient.close (s : SFTPState) : SFTPState × Nat × Nat :=
  (s, (if s.channel.isSome then 1 else 0), 1)

/-! ## Concrete fixtures shared by the theorems -/

/-- A freshly constructed SFTP instrumentor (`__init__` ran; no channel). -/
def demoState : SFTPState := ServiceSFTPClient.init "h" 22 "u" "p" "svc"

/-- The same instrumentor after a successful `connect`: channel id 0 cached. -/
def demoConnected : SFTPState := { demoState with channel := some 0 }

/-- Transport behaviour in which every remote operation succeeds. -/
def demoWorldOK : SFTPWorld :=
  { connectResult := .ok 0, listdirOK := fun _ => true, writeResult := .ok () }

/-- Transport behaviour in which the connection attempt raises with text
"Connection refused" and remote operations fail. -/
def demoWorldFail : SFTPWorld :=
  { connectResult := .error "Connection refused", listdirOK := fun _ => false,
    writeResult := .error "write failed" }

/-! ## Claims -/

/-- Claim C1: the spec's invariant says exactly one of
`response_representation` / `error_message` is populated per record.  The
code violates it: the record built by a fully successful SFTP upload
carries both a non-empty `error_message` ("Path validation failed. Error:
None", the unconditional overwrite at protocols.py lines 157-159) and a
populated success `response_repr`. -/
theorem c1_sftp_success_record_populates_both :
    ((ServiceSFTPClient.upload demoWorldOK demoConnected "/data/" "a.txt" "hello" 0 1).1.log_payload.error_message
        = "Path validation failed. Error: None") ∧
    ((ServiceSFTPClient.upload demoWorldOK demoConnected "/data/" "a.txt" "hello" 0 1).1.log_payload.response_repr
        = .msgDict "a.txt uploaded successfully to /data/") := by decide

/-- Claim C2: on a successful upload the method does return the success
message, but — contrary to the claim — the audit payload retains the
residual "Path validation failed. Error: None" in `error_message`, written
unconditionally at protocols.py lines 157-159 even though `is_valid_path`
succeeded. -/
theorem c2_residual_path_validation_message_on_success :
    ((ServiceSFTPClient.upload demoWorldOK demoConnected "/data/" "a.txt" "hello" 0 1).2.2
        = "a.txt uploaded successfully to /data/") ∧
    ((ServiceSFTPClient.upload demoWorldOK demoConnected "/data/" "a.txt" "hello" 0 1).1.log_payload.error_message
        = "Path validation failed. Error: None") := by decide

/-- Claim C3: the claim says exactly one CallRecord is emitted to the
AuditSink per logical call.  In the code every sink call is commented out
(protocols.py lines 60, 168) and `__create_log` itself is commented out
(lines 96-98), so a successful HTTP request and an SFTP upload emit zero
records, and a failed connect also emits none (it raises `AttributeError`
trying to call the commented-out method). -/
theorem c3_zero_records_emitted_per_call :
    ((ServiceHTTPClient.request "default" "GET" "http://svc/x" "{}" "{}"
        (.ok { status_code := 200, json := .ok "{}" }) 0 1).toOption.map
        (fun out => out.2.2)) = some [] ∧
    (ServiceSFTPClient.upload demoWorldOK demoConnected "/data/" "a.txt" "hello" 0 1).2.1 = [] ∧
    (ServiceSFTPClient.connect demoWorldFail demoState).2.2.1 = [] := by decide

/-- Claim C4: on a failed `connect` the instrumentor does stay
Disconnected and does record the error text in the payload, but — contrary
to the claim — it raises `AttributeError` past the instrumentor boundary
(the except block calls the commented-out `self.__create_log`,
protocols.py line 119) instead of returning `(None, e)`. -/
theorem c4_connect_failure_raises_attribute_error :
    ((ServiceSFTPClient.connect demoWorldFail demoState).2.2.2
        = .error (.attributeError "_ServiceSFTPClient__create_log")) ∧
    ((ServiceSFTPClient.connect demoWorldFail demoState).1.channel = none) ∧
    ((ServiceSFTPClient.connect demoWorldFail demoState).1.log_payload.error_message
        = "SFTP connection failed. Error: Connection refused") := by decide

/-- Claim C5 counterexample: transport success (status 200) with a failing
body decode.  The claim says the record carries a response representation
rather than an error_message; in the code the `response.json()` call sits
inside the same `try` (protocols.py line 41), so the record carries
`error_message = "Expecting value"` and no response representation. -/
theorem c5_counterexample_decode_failure_sets_error :
    ((ServiceHTTPClient.request "default" "GET" "http://svc/x" "{}" "{}"
        (.ok { status_code := 200, json := .error "Expecting value" }) 0 1).toOption.map
        (fun out => (out.1.error_message, out.1.response_repr)))
      = some (some "Expecting value", none) := by decide

/-- Claim C5 amended: when the transport succeeds but decoding the body
raises (with non-empty exception text), the call still returns the
response object — the decode failure is not escalated at the return-value
level and no exception escapes — but the audit record carries the decode
exception text as `error_message` and no response representation. -/
theorem c5_amended_decode_failure (sn m u hd d msg : String) (status : Nat)
    (t0 t1 : Int) (h : msg ≠ "") :
    ServiceHTTPClient.request sn m u hd d
        (.ok { status_code := status, json := .error msg }) t0 t1
      = .ok ({ service_name := sn, protocol := PROTOCOLS[0]!,
               request_repr := { endpoint := u, method := m, headers := hd, body := d },
               execution_time := t1 - t0,
               error_message := some msg, response_repr := none },
             some { status_code := status, json := .error msg }, []) := by
  have hb : (msg == "") = false := by simp [h]
  simp [ServiceHTTPClient.request, pyTruthy, hb]

/-- Claim C5 witness: the amended statement at a concrete decode-failure
input. -/
theorem c5_amended_decode_failure_witness :
    ServiceHTTPClient.request "default" "GET" "http://svc/x" "{}" "{}"
        (.ok { status_code := 200, json := .error "Expecting value" }) 0 1
      = .ok ({ service_name := "default", protocol := PROTOCOLS[0]!,
               request_repr := { endpoint := "http://svc/x", method := "GET",
                                 headers := "{}", body := "{}" },
               execution_time := 1 - 0,
               error_message := some "Expecting value", response_repr := none },
             some { status_code := 200, json := .error "Expecting value" }, []) :=
  c5_amended_decode_failure "default" "GET" "http://svc/x" "{}" "{}"
    "Expecting value" 200 0 1 (by decide)

/-- Claim C6 counterexample: after `close()` on a Connected instrumentor
the cached channel reference is still set — the instrumentor is not in the
Disconnected state, because `close` (protocols.py lines 172-175) never
assigns `self.channel = None`. -/
theorem c6_counterexample_close_keeps_channel :
    (ServiceSFTPClient.close demoConnected).1.isDisconnected = false := by decide

/-- Claim C6 amended: `close()` is total from either state (so calling it
twice in succession cannot raise, both underlying closes being total),
closes the channel exactly when one is cached and always instructs the
session to release; but it leaves the state — in particular the cached
channel reference — unchanged, so a Connected instrumentor does not
transition to Disconnected. -/
theorem c6_amended_close_total_but_state_unchanged (s : SFTPState) :
    ((ServiceSFTPClient.close s).1 = s) ∧
    ((ServiceSFTPClient.close (ServiceSFTPClient.close s).1).1 = s) ∧
    ((ServiceSFTPClient.close s).2.1 = (if s.channel.isSome then 1 else 0)) ∧
    ((ServiceSFTPClient.close s).2.2 = 1) := by
  simp [ServiceSFTPClient.close]

/-- Claim C6 witness: the amended statement at a concrete Connected
instrumentor. -/
theorem c6_amended_close_total_but_state_unchanged_witness :
    ((ServiceSFTPClient.close demoConnected).1 = demoConnected) ∧
    ((ServiceSFTPClient.close (ServiceSFTPClient.close demoConnected).1).1 = demoConnected) ∧
    ((ServiceSFTPClient.close demoConnected).2.1
        = (if demoConnected.channel.isSome then 1 else 0)) ∧
    ((ServiceSFTPClient.close demoConnected).2.2 = 1) :=
  c6_amended_close_total_but_state_unchanged demoConnected

/-- Claim C7: starting Disconnected, a successful `connect()` followed by
a second `connect()` (under any transport behaviour) returns the same
channel handle both times, leaves the state of the first call untouched,
and the two calls together issue exactly one underlying transport
connection attempt — the second call issues none while the session is
live. -/
theorem c7_connect_reuses_single_session (w w2 : SFTPWorld) (s : SFTPState)
    (ch : Nat) (h0 : s.channel = none) (h : w.connectResult = .ok ch) :
    ((ServiceSFTPClient.connect w s).2.2.2 = .ok (some ch, none)) ∧
    ((ServiceSFTPClient.connect w2 (ServiceSFTPClient.connect w s).1).2.2.2
        = .ok (some ch, none)) ∧
    ((ServiceSFTPClient.connect w2 (ServiceSFTPClient.connect w s).1).1
        = (ServiceSFTPClient.connect w s).1) ∧
    ((ServiceSFTPClient.connect w s).2.1 = 1) ∧
    ((ServiceSFTPClient.connect w2 (ServiceSFTPClient.connect w s).1).2.1 = 0) := by
  simp [ServiceSFTPClient.connect, h0, h]

/-- Claim C7 witness: the reuse property at a concrete world and a fresh
instrumentor. -/
theorem c7_connect_reuses_single_session_witness :
    ((ServiceSFTPClient.connect demoWorldOK demoState).2.2.2 = .ok (some 0, none)) ∧
    ((ServiceSFTPClient.connect demoWorldOK (ServiceSFTPClient.connect demoWorldOK demoState).1).2.2.2
        = .ok (some 0, none)) ∧
    ((ServiceSFTPClient.connect demoWorldOK (ServiceSFTPClient.connect demoWorldOK demoState).1).1
        = (ServiceSFTPClient.connect demoWorldOK demoState).1) ∧
    ((ServiceSFTPClient.connect demoWorldOK demoState).2.1 = 1) ∧
    ((ServiceSFTPClient.connect demoWorldOK (ServiceSFTPClient.connect demoWorldOK demoState).1).2.1 = 0) :=
  c7_connect_reuses_single_session demoWorldOK demoWorldOK demoState 0 rfl rfl

/-- The missing-path reason can never coincide with the connection-absence
reason: their first characters differ. -/
theorem folder_reason_ne_connection_reason (p : String) :
    ("Folder(" ++ p ++ ") not found.") ≠ "Connection not established" := by
  intro hcontra
  have h1 : ("Folder(" ++ p ++ ") not found.").data.head?
      = ("Connection not established" : String).data.head? := by rw [hcontra]
  have h2 : ("Folder(" ++ p ++ ") not found.").data.head? = some 'F' := by
    rw [String.data_append, String.data_append]
    rw [show "Folder(".data = 'F' :: "older(".data from rfl]
    rfl
  rw [h2] at h1
  exact absurd h1 (by decide)

/-- Claim C8 counterexample: on a Disconnected instrumentor
`is_valid_path` does not return the claimed pair
`(false, "connection not established")` — the code's reason string is
capitalised ("Connection not established", protocols.py line 132). -/
theorem c8_counterexample_reason_capitalisation :
    (ServiceSFTPClient.is_valid_path demoWorldOK demoState "/data/").1
      ≠ (false, some "connection not established") := by decide

/-- Claim C8 amended: on a Disconnected instrumentor `is_valid_path`
returns `(false, "Connection not established")` (capital C) with zero
transport calls; on a Connected instrumentor whose remote listing raises
it returns failure with the missing-path reason
`"Folder(<path>) not found."`, making exactly one listing call, without
propagating the exception (the embedding is a total function), and that
reason is distinct from the connection-absence reason. -/
theorem c8_amended_is_valid_path (w : SFTPWorld) (s sc : SFTPState)
    (path : String) (c : Nat) (h0 : s.channel = none) (hc : sc.channel = some c)
    (hl : w.listdirOK path = false) :
    (ServiceSFTPClient.is_valid_path w s path
        = ((false, some "Connection not established"), 0)) ∧
    (ServiceSFTPClient.is_valid_path w sc path
        = ((false, some ("Folder(" ++ path ++ ") not found.")), 1)) ∧
    (("Folder(" ++ path ++ ") not found.") ≠ "Connection not established") := by
  refine ⟨?_, ?_, folder_reason_ne_connection_reason path⟩
  · simp [ServiceSFTPClient.is_valid_path, h0]
  · simp [ServiceSFTPClient.is_valid_path, hc, hl]

/-- Claim C8 witness: the amended statement at a concrete disconnected
instrumentor, a concrete connected one, and a failing remote listing. -/
theorem c8_amended_is_valid_path_witness :
    (ServiceSFTPClient.is_valid_path demoWorldFail demoState "/data/"
        = ((false, some "Connection not established"), 0)) ∧
    (ServiceSFTPClient.is_valid_path demoWorldFail demoConnected "/data/"
        = ((false, some ("Folder(" ++ "/data/" ++ ") not found.")), 1)) ∧
    (("Folder(" ++ "/data/" ++ ") not found.") ≠ "Connection not established") :=
  c8_amended_is_valid_path demoWorldFail demoState demoConnected "/data/" 0 rfl rfl rfl

/-- Claim C9 counterexample: when the transport raises an exception whose
string representation is empty, `if error:` (protocols.py line 55) is
falsy and the else branch reads the never-bound `response_repr`
(line 58), so the method propagates a `NameError` to the caller instead of
returning a placeholder. -/
theorem c9_counterexample_empty_message_raises_name_error :
    ServiceHTTPClient.request "default" "GET" "http://svc/x" "{}" "{}"
        (.error "") 0 1
      = .error (.nameError "response_repr") := by decide

/-- Claim C9 amended: for every HTTP request whose transport raises with a
non-empty exception message, the instrumentor returns `None` as the result
placeholder without propagating the exception, and the record has
`error_message` set to the exception text and `response_repr` unset;
exceptions whose string is empty instead make the method raise
`NameError`. -/
theorem c9_amended_transport_failure (sn m u hd d msg : String) (t0 t1 : Int)
    (h : msg ≠ "") :
    ServiceHTTPClient.request sn m u hd d (.error msg) t0 t1
      = .ok ({ service_name := sn, protocol := PROTOCOLS[0]!,
               request_repr := { endpoint := u, method := m, headers := hd, body := d },
               execution_time := t1 - t0,
               error_message := some msg, response_repr := none },
             none, []) := by
  have hb : (msg == "") = false := by simp [h]
  simp [ServiceHTTPClient.request, pyTruthy, hb]

/-- Claim C9 witness: the amended statement at a concrete transport
failure with non-empty message. -/
theorem c9_amended_transport_failure_witness :
    ServiceHTTPClient.request "default" "GET" "http://svc/x" "{}" "{}"
        (.error "Connection refused") 0 1
      = .ok ({ service_name := "default", protocol := PROTOCOLS[0]!,
               request_repr := { endpoint := "http://svc/x", method := "GET",
                                 headers := "{}", body := "{}" },
               execution_time := 1 - 0,
               error_message := some "Connection refused", response_repr := none },
             none, []) :=
  c9_amended_transport_failure "default" "GET" "http://svc/x" "{}" "{}"
    "Connection refused" 0 1 (by decide)

/-- Claim C10: the SFTP instrumentor reuses one mutable audit-payload dict
across calls, so fields written by one operation bleed into later records:
after an `upload` (here on a disconnected instance) followed by a failed
`connect()`, the payload at the connect-failure log attempt still carries
the upload's request_repr fields (operation "upload", the remote path and
filename) and the upload's response_repr message. -/
theorem c10_payload_bleed_through :
    ((ServiceSFTPClient.connect demoWorldFail
        (ServiceSFTPClient.upload demoWorldFail demoState "/data/" "a.txt" "hello" 0 1).1).1.log_payload.request_repr.operation
      = some "upload") ∧
    ((ServiceSFTPClient.connect demoWorldFail
        (ServiceSFTPClient.upload demoWorldFail demoState "/data/" "a.txt" "hello" 0 1).1).1.log_payload.request_repr.remote_path
      = "/data/") ∧
    ((ServiceSFTPClient.connect demoWorldFail
        (ServiceSFTPClient.upload demoWorldFail demoState "/data/" "a.txt" "hello" 0 1).1).1.log_payload.request_repr.filename
      = "a.txt") ∧
    ((ServiceSFTPClient.connect demoWorldFail
        (ServiceSFTPClient.upload demoWorldFail demoState "/data/" "a.txt" "hello" 0 1).1).1.log_payload.response_repr
      = .msgDict "") ∧
    ((ServiceSFTPClient.connect demoWorldFail
        (ServiceSFTPClient.upload demoWorldFail demoState "/data/" "a.txt" "hello" 0 1).1).1.log_payload.error_message
      = "SFTP connection failed. Error: Connection refused") := by decide

end EasyAudit
